import Mathlib

/-!
Verification of the composite action `PlaceNixConfiguration` from
`src/action/common/place_nix_configuration.rs`, a shallow embedding of the
Rust source into Lean.

The repository only ships this one source file; the surrounding framework
pieces it uses (the `StatefulAction` wrapper, the leaf actions
`CreateDirectory` and `CreateFile`, the `ActionError` taxonomy and the
action tags) are described by the specification (sections 3, 4.1, 4.2 and
4.4) and are modelled here from the specification text.  The behaviour of
the leaf actions and of the wrapped inner calls depends on the machine
state, which we model by an explicit environment `Env` of oracle results;
all orchestration logic is translated directly from the source file.
-/

/-- Modelled from the spec: the tri-state (plus Skipped) completion marker of
the Stateful Wrapper, section 3.  The wrapper source is not in the repo. -/
inductive ActionState where
  | NotStarted
  | Completed
  | Reverted
  | Skipped
deriving DecidableEq, Repr

/-- Action tags are stable strings identifying a concrete action kind
(`ActionTag` holds a string in the source). -/
structure ActionTag where
  name : String
deriving DecidableEq, Repr

/-- Modelled from the spec: the recursive action error taxonomy of section
4.4, Leaf domain failures and Child-tagged wrappings.  The error enum source
is not in the repo; the Child constructor shape matches the
`ActionError::Child(tag, Box::new(e))` uses in the source file. -/
inductive ActionError where
  | Leaf (msg : String)
  | Child (tag : ActionTag) (inner : ActionError)
deriving DecidableEq, Repr

/-- Whether an error is a Child-tagged wrapping (as opposed to a bare leaf
error). -/
def ActionError.isChild : ActionError → Bool
  | .Leaf _ => false
  | .Child _ _ => true

/-- Human readable description entries, as built by `ActionDescription::new`. -/
structure ActionDescription where
  description : String
  explanation : List String
deriving DecidableEq, Repr

def ActionDescription.new (d : String) (e : List String) : ActionDescription :=
  ⟨d, e⟩

/-- Modelled from the spec: the Stateful Wrapper of section 4.2, owning one
action instance plus a completion marker.  Its source is not in the repo. -/
structure StatefulAction (α : Type) where
  action : α
  state : ActionState
deriving DecidableEq, Repr

/-- Modelled from the spec, section 4.2: `try_execute` is a no-op returning Ok
when the marker is Completed; otherwise it runs the inner execute (whose
outcome `inner_execute` the environment supplies), marking Completed on
success and leaving the marker as-is on failure, propagating the error
unchanged. -/
def StatefulAction.try_execute {α : Type} (inner_execute : Except ActionError Unit)
    (self : StatefulAction α) : Except ActionError Unit × StatefulAction α :=
  match self.state with
  | .Completed => (.ok (), self)
  | _ =>
    match inner_execute with
    | .ok _ => (.ok (), { self with state := .Completed })
    | .error e => (.error e, self)

/-- Modelled from the spec, section 4.2: `try_revert` is a no-op when the
marker is not Completed; otherwise it runs the inner revert (outcome supplied
by the environment), marking Reverted on success. -/
def StatefulAction.try_revert {α : Type} (inner_revert : Except ActionError Unit)
    (self : StatefulAction α) : Except ActionError Unit × StatefulAction α :=
  match self.state with
  | .Completed =>
    match inner_revert with
    | .ok _ => (.ok (), { self with state := .Reverted })
    | .error e => (.error e, self)
  | _ => (.ok (), self)

/-- Modelled from the spec: the planned form of the directory-creation leaf
action; it carries only the data needed to execute and revert itself (path,
ownership, permission bits), section 3.  Its source is not in the repo. -/
structure CreateDirectory where
  path : String
  user : Option String
  group : Option String
  mode : Nat
deriving DecidableEq, Repr

/-- Modelled from the spec: the planned form of the file-creation leaf action
(path, ownership, permission bits and the file contents `buf`). -/
structure CreateFile where
  path : String
  user : Option String
  group : Option String
  mode : Nat
  buf : String
deriving DecidableEq, Repr

/-- Modelled from the spec: the tag of the directory-creation kind, constant
per concrete kind and unique across the system (section 4.1). -/
def CreateDirectory.action_tag : ActionTag := ⟨"create_directory"⟩

/-- Modelled from the spec: the tag of the file-creation kind. -/
def CreateFile.action_tag : ActionTag := ⟨"create_file"⟩

/-- Tag lookup for a wrapped action: the wrapper defers to the constant tag
of the wrapped kind. -/
class HasActionTag (α : Type) where
  action_tag : ActionTag

instance : HasActionTag CreateDirectory := ⟨CreateDirectory.action_tag⟩
instance : HasActionTag CreateFile := ⟨CreateFile.action_tag⟩

/-- Modelled from the spec: `StatefulAction::action_tag` returns the constant
tag of the wrapped action kind. -/
def StatefulAction.action_tag {α : Type} [HasActionTag α]
    (_self : StatefulAction α) : ActionTag :=
  @HasActionTag.action_tag α _

/-- The environment: outcomes of the leaf operations, which in the source
depend on the machine state.  Plan oracles decide, per argument list, whether
the leaf plan fails and otherwise which initial marker the returned wrapper
carries; execute and revert oracles give the outcome of the wrapped inner
call. -/
structure Env where
  create_directory_plan :
    String → Option String → Option String → Nat → Bool →
      Except ActionError ActionState
  create_file_plan :
    String → Option String → Option String → Nat → String → Bool →
      Except ActionError ActionState
  create_directory_execute : Except ActionError Unit
  create_file_execute : Except ActionError Unit
  create_directory_revert : Except ActionError Unit
  create_file_revert : Except ActionError Unit

/-- Modelled from the spec, section 4.1: `CreateDirectory::plan` validates its
inputs without touching the system and on success returns a ready-to-execute
wrapper recording the requested path, ownership and mode; validation may fail
depending on the environment. -/
def CreateDirectory.plan (env : Env) (path : String) (user group : Option String)
    (mode : Nat) (force : Bool) : Except ActionError (StatefulAction CreateDirectory) :=
  match env.create_directory_plan path user group mode force with
  | .error e => .error e
  | .ok st => .ok ⟨⟨path, user, group, mode⟩, st⟩

/-- Modelled from the spec, section 4.1: `CreateFile::plan`, recording path,
ownership, mode and the file contents. -/
def CreateFile.plan (env : Env) (path : String) (user group : Option String)
    (mode : Nat) (buf : String) (force : Bool) :
    Except ActionError (StatefulAction CreateFile) :=
  match env.create_file_plan path user group mode buf force with
  | .error e => .error e
  | .ok st => .ok ⟨⟨path, user, group, mode, buf⟩, st⟩

/-- Source constant: the Nix configuration folder. -/
def NIX_CONF_FOLDER : String := "/etc/nix"

/-- Source constant: the Nix configuration file path. -/
def NIX_CONF : String := "/etc/nix/nix.conf"

/-- Modelled from the spec: the build-time package-version constant that the
source reads from its build manifest; the manifest is not in the repo, so the
concrete value is arbitrary here and the theorems treat it symbolically. -/
def CARGO_PKG_VERSION : String := "0.0.0"

/-- The composite action: two wrapped children, declared in the order
directory first, file second, exactly as in the source struct. -/
structure PlaceNixConfiguration where
  create_directory : StatefulAction CreateDirectory
  create_file : StatefulAction CreateFile
deriving DecidableEq, Repr

instance : HasActionTag PlaceNixConfiguration := ⟨⟨"place_nix_configuration"⟩⟩

/-- Observable record of which child operation an orchestration step invoked,
in invocation order. -/
inductive ChildCall where
  | create_directory_call
  | create_file_call
deriving DecidableEq, Repr

/-- The configuration file contents built by `plan`: the format string of the
source, as a function of the version constant, the build group name and the
extra configuration lines.  The source joins `extra_conf` with a newline and
splices the pieces in this exact order. -/
def nix_conf_content (version nix_build_group_name : String)
    (extra_conf : List String) : String :=
  "# Generated by https://github.com/DeterminateSystems/nix-installer, version "
    ++ version ++ ".\n\n"
    ++ String.intercalate "\n" extra_conf
    ++ "\n\nbuild-users-group = " ++ nix_build_group_name
    ++ "\n\n" ++ "experimental-features = nix-command flakes"
    ++ "\n\n" ++ "auto-optimise-store = true"
    ++ "\n\n" ++ "bash-prompt-prefix = (nix:$name)\\040"
    ++ "\n\n" ++ "extra-nix-path = nixpkgs=flake:nixpkgs" ++ "\n"

/-- `PlaceNixConfiguration::plan`, translated from the source: build the
configuration contents, plan the directory child (wrapping a failure with the
directory tag), then plan the file child (wrapping a failure with the file
tag), and wrap the resulting composite.  The second component records which
child plans were invoked, in order. -/
def PlaceNixConfiguration.plan (env : Env) (nix_build_group_name : String)
    (extra_conf : List String) (force : Bool) :
    Except ActionError (StatefulAction PlaceNixConfiguration) × List ChildCall :=
  let buf := nix_conf_content CARGO_PKG_VERSION nix_build_group_name extra_conf
  match CreateDirectory.plan env NIX_CONF_FOLDER none none 0o0755 force with
  | .error e =>
    (.error (.Child CreateDirectory.action_tag e), [.create_directory_call])
  | .ok create_directory =>
    match CreateFile.plan env NIX_CONF none none 0o0664 buf force with
    | .error e =>
      (.error (.Child CreateFile.action_tag e),
       [.create_directory_call, .create_file_call])
    | .ok create_file =>
      (.ok ⟨⟨create_directory, create_file⟩, .NotStarted⟩,
       [.create_directory_call, .create_file_call])

/-- `action_tag` of the composite, from the source. -/
def PlaceNixConfiguration.action_tag : ActionTag := ⟨"place_nix_configuration"⟩

/-- The registration name of the composite in the dynamic action registry,
from the serde attribute on the impl block in the source. -/
def PlaceNixConfiguration.typetag_serde_name : String := "place_nix_configuration"

/-- `tracing_synopsis`, from the source. -/
def PlaceNixConfiguration.tracing_synopsis (_self : PlaceNixConfiguration) : String :=
  "Place the Nix configuration in `" ++ NIX_CONF ++ "`"

/-- `execute_description`, from the source. -/
def PlaceNixConfiguration.execute_description (self : PlaceNixConfiguration) :
    List ActionDescription :=
  [ActionDescription.new self.tracing_synopsis
    ["This file is read by the Nix daemon to set its configuration options at runtime."]]

/-- `revert_description`, from the source. -/
def PlaceNixConfiguration.revert_description (_self : PlaceNixConfiguration) :
    List ActionDescription :=
  [ActionDescription.new ("Remove the Nix configuration in `" ++ NIX_CONF ++ "`")
    ["This file is read by the Nix daemon to set its configuration options at runtime."]]

/-- `execute`, translated from the source: try-execute the directory child,
wrapping a failure with that child tag and returning early; then try-execute
the file child likewise.  Returns the result, the updated composite and the
list of children invoked, in order. -/
def PlaceNixConfiguration.execute (env : Env) (self : PlaceNixConfiguration) :
    Except ActionError Unit × PlaceNixConfiguration × List ChildCall :=
  match self.create_directory.try_execute env.create_directory_execute with
  | (.error e, create_directory1) =>
    (.error (.Child self.create_directory.action_tag e),
     { self with create_directory := create_directory1 },
     [.create_directory_call])
  | (.ok _, create_directory1) =>
    match self.create_file.try_execute env.create_file_execute with
    | (.error e, create_file1) =>
      (.error (.Child self.create_file.action_tag e),
       ⟨create_directory1, create_file1⟩,
       [.create_directory_call, .create_file_call])
    | (.ok _, create_file1) =>
      (.ok (), ⟨create_directory1, create_file1⟩,
       [.create_directory_call, .create_file_call])

/-- `revert`, translated from the source: try-revert the file child first,
wrapping a failure with that child tag and returning early; then try-revert
the directory child likewise. -/
def PlaceNixConfiguration.revert (env : Env) (self : PlaceNixConfiguration) :
    Except ActionError Unit × PlaceNixConfiguration × List ChildCall :=
  match self.create_file.try_revert env.create_file_revert with
  | (.error e, create_file1) =>
    (.error (.Child self.create_file.action_tag e),
     { self with create_file := create_file1 },
     [.create_file_call])
  | (.ok _, create_file1) =>
    match self.create_directory.try_revert env.create_directory_revert with
    | (.error e, create_directory1) =>
      (.error (.Child self.create_directory.action_tag e),
       ⟨create_directory1, create_file1⟩,
       [.create_file_call, .create_directory_call])
    | (.ok _, create_directory1) =>
      (.ok (), ⟨create_directory1, create_file1⟩,
       [.create_file_call, .create_directory_call])

/-! Concrete environments and instances used by the witnesses. -/

def env_all_ok : Env :=
  { create_directory_plan := fun _ _ _ _ _ => .ok .NotStarted
    create_file_plan := fun _ _ _ _ _ _ => .ok .NotStarted
    create_directory_execute := .ok ()
    create_file_execute := .ok ()
    create_directory_revert := .ok ()
    create_file_revert := .ok () }

def env_dir_execute_fails : Env :=
  { env_all_ok with create_directory_execute := .error (.Leaf "permission denied") }

def env_file_execute_fails : Env :=
  { env_all_ok with create_file_execute := .error (.Leaf "disk full") }

def env_file_revert_fails : Env :=
  { env_all_ok with create_file_revert := .error (.Leaf "busy") }

def env_dir_revert_fails : Env :=
  { env_all_ok with create_directory_revert := .error (.Leaf "not empty") }

def env_dir_plan_fails : Env :=
  { env_all_ok with create_directory_plan := fun _ _ _ _ _ => .error (.Leaf "invalid path") }

def env_file_plan_fails : Env :=
  { env_all_ok with create_file_plan := fun _ _ _ _ _ _ => .error (.Leaf "exists") }

def sample_not_started : PlaceNixConfiguration :=
  ⟨⟨⟨"/etc/nix", none, none, 0o0755⟩, .NotStarted⟩,
   ⟨⟨"/etc/nix/nix.conf", none, none, 0o0664,
     nix_conf_content CARGO_PKG_VERSION "nixbld" []⟩, .NotStarted⟩⟩

def sample_completed : PlaceNixConfiguration :=
  ⟨⟨⟨"/etc/nix", none, none, 0o0755⟩, .Completed⟩,
   ⟨⟨"/etc/nix/nix.conf", none, none, 0o0664,
     nix_conf_content CARGO_PKG_VERSION "nixbld" []⟩, .Completed⟩⟩

/-- C1: execute invokes the children strictly in declared order, directory
first and then file, and stops at the first failure: when the directory child
try-execute fails, the result is that failure wrapped with the directory tag
and the file child try-execute is never invoked; when it succeeds, the file
child is invoked right after it. -/
theorem execute_declared_order_stops_at_first_failure
    (env : Env) (self : PlaceNixConfiguration) (e : ActionError) :
    ((self.create_directory.try_execute env.create_directory_execute).1 = .error e →
      (PlaceNixConfiguration.execute env self).1 =
          .error (.Child CreateDirectory.action_tag e) ∧
      (PlaceNixConfiguration.execute env self).2.2 = [.create_directory_call]) ∧
    ((self.create_directory.try_execute env.create_directory_execute).1 = .ok () →
      (PlaceNixConfiguration.execute env self).2.2 =
          [.create_directory_call, .create_file_call]) := by
  rcases h1 : self.create_directory.try_execute env.create_directory_execute with ⟨r1, d1⟩
  constructor
  · intro he
    simp at he
    subst he
    simp only [PlaceNixConfiguration.execute]
    rw [h1]
    exact ⟨rfl, rfl⟩
  · intro ho
    simp at ho
    subst ho
    rcases h2 : self.create_file.try_execute env.create_file_execute with ⟨r2, f1⟩
    simp only [PlaceNixConfiguration.execute]
    rw [h1, h2]
    cases r2 <;> rfl

theorem execute_declared_order_stops_at_first_failure_witness :
    (sample_not_started.create_directory.try_execute
        env_dir_execute_fails.create_directory_execute).1 =
      .error (.Leaf "permission denied") ∧
    ((PlaceNixConfiguration.execute env_dir_execute_fails sample_not_started).1 =
        .error (.Child CreateDirectory.action_tag (.Leaf "permission denied")) ∧
      (PlaceNixConfiguration.execute env_dir_execute_fails sample_not_started).2.2 =
        [.create_directory_call]) :=
  ⟨rfl,
   (execute_declared_order_stops_at_first_failure env_dir_execute_fails
       sample_not_started (.Leaf "permission denied")).1 rfl⟩

/-- C2: revert invokes the children in reverse declared order: the file child
try-revert is invoked before the directory child try-revert, and the
directory child try-revert is invoked only after the file child try-revert
has returned successfully; on a file child try-revert failure, only the file
child was invoked. -/
theorem revert_reverse_declared_order
    (env : Env) (self : PlaceNixConfiguration) (e : ActionError) :
    ((self.create_file.try_revert env.create_file_revert).1 = .error e →
      (PlaceNixConfiguration.revert env self).2.2 = [.create_file_call]) ∧
    ((self.create_file.try_revert env.create_file_revert).1 = .ok () →
      (PlaceNixConfiguration.revert env self).2.2 =
          [.create_file_call, .create_directory_call]) := by
  rcases h1 : self.create_file.try_revert env.create_file_revert with ⟨r1, f1⟩
  constructor
  · intro he
    simp at he
    subst he
    simp only [PlaceNixConfiguration.revert]
    rw [h1]
  · intro ho
    simp at ho
    subst ho
    rcases h2 : self.create_directory.try_revert env.create_directory_revert with ⟨r2, d1⟩
    simp only [PlaceNixConfiguration.revert]
    rw [h1, h2]
    cases r2 <;> rfl

theorem revert_reverse_declared_order_witness :
    (sample_completed.create_file.try_revert
        env_all_ok.create_file_revert).1 = .ok () ∧
    (PlaceNixConfiguration.revert env_all_ok sample_completed).2.2 =
      [.create_file_call, .create_directory_call] :=
  ⟨rfl,
   (revert_reverse_declared_order env_all_ok sample_completed
       (.Leaf "unused")).2 rfl⟩

/-- C5: revert stops at the first revert failure, the behaviour the design
notes record as the observed pattern: when the file child try-revert fails,
the failure is propagated immediately wrapped with the file child tag, the
directory child try-revert is not attempted, and the directory child wrapper
is left untouched. -/
theorem revert_stops_at_first_revert_failure
    (env : Env) (self : PlaceNixConfiguration) (e : ActionError) :
    (self.create_file.try_revert env.create_file_revert).1 = .error e →
      PlaceNixConfiguration.revert env self =
        (.error (.Child CreateFile.action_tag e),
         ⟨self.create_directory,
          (self.create_file.try_revert env.create_file_revert).2⟩,
         [.create_file_call]) := by
  rcases h1 : self.create_file.try_revert env.create_file_revert with ⟨r1, f1⟩
  intro he
  simp at he
  subst he
  simp only [PlaceNixConfiguration.revert]
  rw [h1]
  rfl

theorem revert_stops_at_first_revert_failure_witness :
    (sample_completed.create_file.try_revert
        env_file_revert_fails.create_file_revert).1 = .error (.Leaf "busy") ∧
    PlaceNixConfiguration.revert env_file_revert_fails sample_completed =
      (.error (.Child CreateFile.action_tag (.Leaf "busy")),
       ⟨sample_completed.create_directory,
        (sample_completed.create_file.try_revert
          env_file_revert_fails.create_file_revert).2⟩,
       [.create_file_call]) :=
  ⟨rfl,
   revert_stops_at_first_revert_failure env_file_revert_fails sample_completed
     (.Leaf "busy") rfl⟩

/-- C3: in plan, execute and revert, every error surfaced to the caller is
the child error wrapped as Child with that child own tag: a directory child
failure surfaces as Child of the directory tag around exactly the inner
error, a file child failure as Child of the file tag, and no surfaced error
is ever a bare leaf error. -/
theorem action_error_child_attribution
    (env : Env) (self : PlaceNixConfiguration) (name : String)
    (extra : List String) (force : Bool) (e err : ActionError) :
    ((self.create_directory.try_execute env.create_directory_execute).1 = .error e →
      (PlaceNixConfiguration.execute env self).1 =
        .error (.Child CreateDirectory.action_tag e)) ∧
    ((self.create_directory.try_execute env.create_directory_execute).1 = .ok () →
      (self.create_file.try_execute env.create_file_execute).1 = .error e →
      (PlaceNixConfiguration.execute env self).1 =
        .error (.Child CreateFile.action_tag e)) ∧
    ((self.create_file.try_revert env.create_file_revert).1 = .error e →
      (PlaceNixConfiguration.revert env self).1 =
        .error (.Child CreateFile.action_tag e)) ∧
    ((self.create_file.try_revert env.create_file_revert).1 = .ok () →
      (self.create_directory.try_revert env.create_directory_revert).1 = .error e →
      (PlaceNixConfiguration.revert env self).1 =
        .error (.Child CreateDirectory.action_tag e)) ∧
    (CreateDirectory.plan env NIX_CONF_FOLDER none none 0o0755 force = .error e →
      (PlaceNixConfiguration.plan env name extra force).1 =
        .error (.Child CreateDirectory.action_tag e)) ∧
    (∀ d, CreateDirectory.plan env NIX_CONF_FOLDER none none 0o0755 force = .ok d →
      CreateFile.plan env NIX_CONF none none 0o0664
          (nix_conf_content CARGO_PKG_VERSION name extra) force = .error e →
      (PlaceNixConfiguration.plan env name extra force).1 =
        .error (.Child CreateFile.action_tag e)) ∧
    ((PlaceNixConfiguration.execute env self).1 = .error err →
      err.isChild = true) ∧
    ((PlaceNixConfiguration.revert env self).1 = .error err →
      err.isChild = true) ∧
    ((PlaceNixConfiguration.plan env name extra force).1 = .error err →
      err.isChild = true) := by
  refine ⟨?_, ?_, ?_, ?_, ?_, ?_, ?_, ?_, ?_⟩
  · rcases h1 : self.create_directory.try_execute env.create_directory_execute with ⟨r1, d1⟩
    intro he
    simp at he
    subst he
    simp only [PlaceNixConfiguration.execute]
    rw [h1]
    rfl
  · rcases h1 : self.create_directory.try_execute env.create_directory_execute with ⟨r1, d1⟩
    intro ho
    simp at ho
    subst ho
    rcases h2 : self.create_file.try_execute env.create_file_execute with ⟨r2, f1⟩
    intro hf
    simp at hf
    subst hf
    simp only [PlaceNixConfiguration.execute]
    rw [h1, h2]
    rfl
  · rcases h1 : self.create_file.try_revert env.create_file_revert with ⟨r1, f1⟩
    intro he
    simp at he
    subst he
    simp only [PlaceNixConfiguration.revert]
    rw [h1]
    rfl
  · rcases h1 : self.create_file.try_revert env.create_file_revert with ⟨r1, f1⟩
    intro ho
    simp at ho
    subst ho
    rcases h2 : self.create_directory.try_revert env.create_directory_revert with ⟨r2, d1⟩
    intro hd
    simp at hd
    subst hd
    simp only [PlaceNixConfiguration.revert]
    rw [h1, h2]
    rfl
  · cases hp : CreateDirectory.plan env NIX_CONF_FOLDER none none 0o0755 force with
    | error e1 =>
      intro h
      simp at h
      subst h
      simp only [PlaceNixConfiguration.plan]
      rw [hp]
    | ok d =>
      intro h
      simp at h
  · intro d hd
    cases hf : CreateFile.plan env NIX_CONF none none 0o0664
        (nix_conf_content CARGO_PKG_VERSION name extra) force with
    | error e2 =>
      intro h
      simp at h
      subst h
      simp only [PlaceNixConfiguration.plan]
      rw [hd, hf]
    | ok f =>
      intro h
      simp at h
  · intro h
    rcases h1 : self.create_directory.try_execute env.create_directory_execute with ⟨r1, d1⟩
    rcases h2 : self.create_file.try_execute env.create_file_execute with ⟨r2, f1⟩
    simp only [PlaceNixConfiguration.execute] at h
    rw [h1, h2] at h
    cases r1 with
    | error e1 =>
      simp at h
      subst h
      rfl
    | ok u =>
      cases r2 with
      | error e2 =>
        simp at h
        subst h
        rfl
      | ok v =>
        simp at h
  · intro h
    rcases h1 : self.create_file.try_revert env.create_file_revert with ⟨r1, f1⟩
    rcases h2 : self.create_directory.try_revert env.create_directory_revert with ⟨r2, d1⟩
    simp only [PlaceNixConfiguration.revert] at h
    rw [h1, h2] at h
    cases r1 with
    | error e1 =>
      simp at h
      subst h
      rfl
    | ok u =>
      cases r2 with
      | error e2 =>
        simp at h
        subst h
        rfl
      | ok v =>
        simp at h
  · intro h
    simp only [PlaceNixConfiguration.plan] at h
    cases hp : CreateDirectory.plan env NIX_CONF_FOLDER none none 0o0755 force with
    | error e1 =>
      rw [hp] at h
      simp at h
      subst h
      rfl
    | ok d =>
      rw [hp] at h
      cases hf : CreateFile.plan env NIX_CONF none none 0o0664
          (nix_conf_content CARGO_PKG_VERSION name extra) force with
      | error e2 =>
        rw [hf] at h
        simp at h
        subst h
        rfl
      | ok f =>
        rw [hf] at h
        simp at h

theorem action_error_child_attribution_witness :
    (sample_not_started.create_directory.try_execute
        env_dir_execute_fails.create_directory_execute).1 =
      .error (.Leaf "permission denied") ∧
    (PlaceNixConfiguration.execute env_dir_execute_fails sample_not_started).1 =
      .error (.Child CreateDirectory.action_tag (.Leaf "permission denied")) ∧
    (ActionError.Child CreateDirectory.action_tag (.Leaf "permission denied")).isChild
      = true :=
  ⟨rfl,
   (action_error_child_attribution env_dir_execute_fails sample_not_started
       "nixbld" [] false (.Leaf "permission denied") (.Leaf "unused")).1 rfl,
   (action_error_child_attribution env_dir_execute_fails sample_not_started
       "nixbld" [] false (.Leaf "unused")
       (.Child CreateDirectory.action_tag
         (.Leaf "permission denied"))).2.2.2.2.2.2.1 rfl⟩

/-- C4: plan invokes the child plans in declared order (directory first, then
file); if the directory child plan fails, plan returns immediately with that
failure wrapped in the directory tag, the file child plan is never invoked,
and no composite value is returned. -/
theorem plan_declared_order_aborts_on_child_failure
    (env : Env) (name : String) (extra : List String) (force : Bool)
    (e : ActionError) :
    (CreateDirectory.plan env NIX_CONF_FOLDER none none 0o0755 force = .error e →
      PlaceNixConfiguration.plan env name extra force =
        (.error (.Child CreateDirectory.action_tag e), [.create_directory_call])) ∧
    ((PlaceNixConfiguration.plan env name extra force).2 = [.create_directory_call] ∨
      (PlaceNixConfiguration.plan env name extra force).2 =
        [.create_directory_call, .create_file_call]) := by
  constructor
  · cases hp : CreateDirectory.plan env NIX_CONF_FOLDER none none 0o0755 force with
    | error e1 =>
      intro h
      simp at h
      subst h
      simp only [PlaceNixConfiguration.plan]
      rw [hp]
    | ok d =>
      intro h
      simp at h
  · cases hp : CreateDirectory.plan env NIX_CONF_FOLDER none none 0o0755 force with
    | error e1 =>
      left
      simp only [PlaceNixConfiguration.plan]
      rw [hp]
    | ok d =>
      right
      simp only [PlaceNixConfiguration.plan]
      rw [hp]
      cases hf : CreateFile.plan env NIX_CONF none none 0o0664
          (nix_conf_content CARGO_PKG_VERSION name extra) force with
      | error e2 => rfl
      | ok f => rfl

theorem plan_declared_order_aborts_on_child_failure_witness :
    CreateDirectory.plan env_dir_plan_fails NIX_CONF_FOLDER none none 0o0755 false =
      .error (.Leaf "invalid path") ∧
    PlaceNixConfiguration.plan env_dir_plan_fails "nixbld" [] false =
      (.error (.Child CreateDirectory.action_tag (.Leaf "invalid path")),
       [.create_directory_call]) :=
  ⟨rfl,
   (plan_declared_order_aborts_on_child_failure env_dir_plan_fails "nixbld" []
       false (.Leaf "invalid path")).1 rfl⟩

/-- Helper: a successful plan always returns the composite wrapper whose
children record exactly the arguments the source passes to the child plans. -/
theorem plan_ok_children (env : Env) (name : String) (extra : List String)
    (force : Bool) (sa : StatefulAction PlaceNixConfiguration)
    (h : (PlaceNixConfiguration.plan env name extra force).1 = .ok sa) :
    ∃ st1 st2,
      sa = ⟨⟨⟨⟨NIX_CONF_FOLDER, none, none, 0o0755⟩, st1⟩,
             ⟨⟨NIX_CONF, none, none, 0o0664,
               nix_conf_content CARGO_PKG_VERSION name extra⟩, st2⟩⟩,
            .NotStarted⟩ := by
  simp only [PlaceNixConfiguration.plan, CreateDirectory.plan, CreateFile.plan] at h
  cases hp : env.create_directory_plan NIX_CONF_FOLDER none none 0o0755 force with
  | error e1 =>
    rw [hp] at h
    simp at h
  | ok st1 =>
    rw [hp] at h
    cases hf : env.create_file_plan NIX_CONF none none 0o0664
        (nix_conf_content CARGO_PKG_VERSION name extra) force with
    | error e2 =>
      rw [hf] at h
      simp at h
    | ok st2 =>
      rw [hf] at h
      simp at h
      exact ⟨st1, st2, h.symm⟩

def sample_planned : StatefulAction PlaceNixConfiguration :=
  ⟨sample_not_started, .NotStarted⟩

/-- C6: on every input on which plan succeeds, the returned composite has as
first child a planned directory creation for /etc/nix with mode 755 and as
second child a planned file creation for /etc/nix/nix.conf with mode 664
carrying the generated configuration contents. -/
theorem plan_success_children_paths_and_modes
    (env : Env) (name : String) (extra : List String) (force : Bool)
    (sa : StatefulAction PlaceNixConfiguration)
    (h : (PlaceNixConfiguration.plan env name extra force).1 = .ok sa) :
    sa.action.create_directory.action.path = "/etc/nix" ∧
    sa.action.create_directory.action.mode = 0o0755 ∧
    sa.action.create_file.action.path = "/etc/nix/nix.conf" ∧
    sa.action.create_file.action.mode = 0o0664 ∧
    sa.action.create_file.action.buf =
      nix_conf_content CARGO_PKG_VERSION name extra := by
  obtain ⟨st1, st2, rfl⟩ := plan_ok_children env name extra force sa h
  exact ⟨rfl, rfl, rfl, rfl, rfl⟩

theorem plan_success_children_paths_and_modes_witness :
    (PlaceNixConfiguration.plan env_all_ok "nixbld" [] false).1 =
      .ok sample_planned ∧
    (sample_planned.action.create_directory.action.path = "/etc/nix" ∧
     sample_planned.action.create_directory.action.mode = 0o0755 ∧
     sample_planned.action.create_file.action.path = "/etc/nix/nix.conf" ∧
     sample_planned.action.create_file.action.mode = 0o0664 ∧
     sample_planned.action.create_file.action.buf =
       nix_conf_content CARGO_PKG_VERSION "nixbld" []) :=
  ⟨rfl,
   plan_success_children_paths_and_modes env_all_ok "nixbld" [] false
     sample_planned rfl⟩

def env_all_ok_skip : Env :=
  { env_all_ok with create_directory_plan := fun _ _ _ _ _ => .ok .Skipped }

def sample_planned_skip : StatefulAction PlaceNixConfiguration :=
  ⟨⟨⟨⟨"/etc/nix", none, none, 0o0755⟩, .Skipped⟩,
    ⟨⟨"/etc/nix/nix.conf", none, none, 0o0664,
      nix_conf_content CARGO_PKG_VERSION "nixbld" []⟩, .NotStarted⟩⟩,
   .NotStarted⟩

/-- C7: the generated configuration contents are a deterministic function of
exactly the build group name and the extra configuration lines plus the
build-time version constant: the contents equal fixed text surrounding the
version, the newline-joined extra entries and the build-users-group line in
that order, a successful plan stores precisely that value, and two
successful plans with equal name and extra lines yield character-for-
character identical contents, whatever the environments or force flags. -/
theorem nix_conf_content_deterministic_and_structured
    (version name : String) (extra : List String) (env env2 : Env)
    (force force2 : Bool) (sa sa2 : StatefulAction PlaceNixConfiguration) :
    (nix_conf_content version name extra =
      "# Generated by https://github.com/DeterminateSystems/nix-installer, version "
        ++ version ++ ".\n\n"
        ++ String.intercalate "\n" extra
        ++ "\n\nbuild-users-group = " ++ name
        ++ "\n\nexperimental-features = nix-command flakes\n\nauto-optimise-store = true\n\nbash-prompt-prefix = (nix:$name)\\040\n\nextra-nix-path = nixpkgs=flake:nixpkgs\n") ∧
    ((PlaceNixConfiguration.plan env name extra force).1 = .ok sa →
      sa.action.create_file.action.buf =
        nix_conf_content CARGO_PKG_VERSION name extra) ∧
    ((PlaceNixConfiguration.plan env name extra force).1 = .ok sa →
      (PlaceNixConfiguration.plan env2 name extra force2).1 = .ok sa2 →
      sa.action.create_file.action.buf = sa2.action.create_file.action.buf) := by
  refine ⟨?_, ?_, ?_⟩
  · simp only [nix_conf_content, String.append_assoc]
    rfl
  · intro h
    obtain ⟨st1, st2, rfl⟩ := plan_ok_children env name extra force sa h
    rfl
  · intro h h2
    obtain ⟨s1, s2, rfl⟩ := plan_ok_children env name extra force sa h
    obtain ⟨t1, t2, rfl⟩ := plan_ok_children env2 name extra force2 sa2 h2
    rfl

theorem nix_conf_content_deterministic_and_structured_witness :
    (PlaceNixConfiguration.plan env_all_ok "nixbld" [] false).1 =
      .ok sample_planned ∧
    (PlaceNixConfiguration.plan env_all_ok_skip "nixbld" [] false).1 =
      .ok sample_planned_skip ∧
    sample_planned.action.create_file.action.buf =
      nix_conf_content CARGO_PKG_VERSION "nixbld" [] ∧
    sample_planned.action.create_file.action.buf =
      sample_planned_skip.action.create_file.action.buf :=
  ⟨rfl, rfl,
   (nix_conf_content_deterministic_and_structured CARGO_PKG_VERSION "nixbld" []
       env_all_ok env_all_ok_skip false false sample_planned
       sample_planned_skip).2.1 rfl,
   (nix_conf_content_deterministic_and_structured CARGO_PKG_VERSION "nixbld" []
       env_all_ok env_all_ok_skip false false sample_planned
       sample_planned_skip).2.2 rfl rfl⟩

/-- C8: action_tag is the constant tag place_nix_configuration, it equals
the registration name of the serialized form, and every wrapper around the
composite carries that same tag. -/
theorem action_tag_matches_registry_name :
    PlaceNixConfiguration.action_tag = ⟨"place_nix_configuration"⟩ ∧
    PlaceNixConfiguration.typetag_serde_name = "place_nix_configuration" ∧
    PlaceNixConfiguration.action_tag.name =
      PlaceNixConfiguration.typetag_serde_name ∧
    ∀ sa : StatefulAction PlaceNixConfiguration,
      sa.action_tag = PlaceNixConfiguration.action_tag :=
  ⟨rfl, rfl, rfl, fun _ => rfl⟩

/-- C9: the synopsis and the execute and revert descriptions are pure and
state independent: for every instance, whatever the children completion
markers and whether execute or revert has run, they return the same fixed
values, and no instance mutation is possible since they are functions of the
instance alone. -/
theorem descriptions_constant (a b : PlaceNixConfiguration) :
    a.tracing_synopsis = "Place the Nix configuration in `/etc/nix/nix.conf`" ∧
    a.execute_description =
      [ActionDescription.new
        "Place the Nix configuration in `/etc/nix/nix.conf`"
        ["This file is read by the Nix daemon to set its configuration options at runtime."]] ∧
    a.revert_description =
      [ActionDescription.new
        "Remove the Nix configuration in `/etc/nix/nix.conf`"
        ["This file is read by the Nix daemon to set its configuration options at runtime."]] ∧
    a.tracing_synopsis = b.tracing_synopsis ∧
    a.execute_description = b.execute_description ∧
    a.revert_description = b.revert_description :=
  ⟨rfl, rfl, rfl, rfl, rfl, rfl⟩

/-- C10: the generated contents always include the four fixed settings
whatever the extra configuration lines are, the extra lines are inserted
verbatim, newline-joined and unescaped, between the header and the
build-users-group line, and an empty extra configuration still yields the
header comment followed by all fixed settings. -/
theorem nix_conf_content_fixed_settings
    (version name : String) (extra : List String) :
    (nix_conf_content version name extra =
      ("# Generated by https://github.com/DeterminateSystems/nix-installer, version "
        ++ version ++ ".\n\n" ++ String.intercalate "\n" extra
        ++ "\n\nbuild-users-group = " ++ name ++ "\n\n")
      ++ "experimental-features = nix-command flakes"
      ++ "\n\nauto-optimise-store = true\n\nbash-prompt-prefix = (nix:$name)\\040\n\nextra-nix-path = nixpkgs=flake:nixpkgs\n") ∧
    (nix_conf_content version name extra =
      ("# Generated by https://github.com/DeterminateSystems/nix-installer, version "
        ++ version ++ ".\n\n" ++ String.intercalate "\n" extra
        ++ "\n\nbuild-users-group = " ++ name
        ++ "\n\nexperimental-features = nix-command flakes\n\n")
      ++ "auto-optimise-store = true"
      ++ "\n\nbash-prompt-prefix = (nix:$name)\\040\n\nextra-nix-path = nixpkgs=flake:nixpkgs\n") ∧
    (nix_conf_content version name extra =
      ("# Generated by https://github.com/DeterminateSystems/nix-installer, version "
        ++ version ++ ".\n\n" ++ String.intercalate "\n" extra
        ++ "\n\nbuild-users-group = " ++ name
        ++ "\n\nexperimental-features = nix-command flakes\n\nauto-optimise-store = true\n\n")
      ++ "bash-prompt-prefix = (nix:$name)\\040"
      ++ "\n\nextra-nix-path = nixpkgs=flake:nixpkgs\n") ∧
    (nix_conf_content version name extra =
      ("# Generated by https://github.com/DeterminateSystems/nix-installer, version "
        ++ version ++ ".\n\n" ++ String.intercalate "\n" extra
        ++ "\n\nbuild-users-group = " ++ name
        ++ "\n\nexperimental-features = nix-command flakes\n\nauto-optimise-store = true\n\nbash-prompt-prefix = (nix:$name)\\040\n\n")
      ++ "extra-nix-path = nixpkgs=flake:nixpkgs"
      ++ "\n") ∧
    (nix_conf_content version name extra =
      "# Generated by https://github.com/DeterminateSystems/nix-installer, version "
        ++ version ++ ".\n\n"
        ++ String.intercalate "\n" extra
        ++ ("\n\nbuild-users-group = " ++ name
        ++ "\n\nexperimental-features = nix-command flakes\n\nauto-optimise-store = true\n\nbash-prompt-prefix = (nix:$name)\\040\n\nextra-nix-path = nixpkgs=flake:nixpkgs\n")) ∧
    (nix_conf_content version name [] =
      "# Generated by https://github.com/DeterminateSystems/nix-installer, version "
        ++ version ++ ".\n\n" ++ ""
        ++ "\n\nbuild-users-group = " ++ name
        ++ "\n\nexperimental-features = nix-command flakes\n\nauto-optimise-store = true\n\nbash-prompt-prefix = (nix:$name)\\040\n\nextra-nix-path = nixpkgs=flake:nixpkgs\n") := by
  refine ⟨?_, ?_, ?_, ?_, ?_, ?_⟩ <;>
    simp only [nix_conf_content, String.append_assoc] <;> rfl
